import Mathlib

/-!
Shallow embedding of the DSA signature-context engine
(`providers/implementations/signature/dsa.c`).

The context state machine, digest binding, one-shot sign/verify, streaming
digest-sign/verify, duplication and the parameter protocol are translated
from the C source.  External collaborators that are not part of the file
(the DSA key primitive, the EVP digest implementations, the DER encoder,
`ossl_prov_is_running`, memory allocation, `ossl_digest_get_approved_nid_with_sha1`
and `ossl_dsa_check_key` from the common provider code) are modelled as an
explicit environment `Env`; where their behaviour decides a claim they are
modelled from the spec, as noted in the doc comments.

C return codes are embedded as labelled results: each `return 0` site of a C
function becomes its own constructor, so that distinct failure exits of the
code stay distinct in the model, while `toInt` recovers the raw C return
value.  Pointers become `Option`; fixed C buffers become `List Nat` together
with an explicit length field where the C keeps one; C strings become
`String`.  Reference counting is not observable in a pure model: sharing a
reference-counted object is represented by equality of the modelled value.
-/

namespace DsaSig

/-- The C `NID_undef` (no / unapproved digest). -/
def NID_undef : Nat := 0

/-- The C `NID_sha1`, the legacy weak digest's identifier. -/
def NID_sha1 : Nat := 64

/-- The C `EVP_PKEY_OP_SIGN` (exact numeric value is external; only identity
matters in this file). -/
def EVP_PKEY_OP_SIGN : Nat := 8

/-- The C `EVP_PKEY_OP_VERIFY`. -/
def EVP_PKEY_OP_VERIFY : Nat := 16

/-- The C `OSSL_MAX_NAME_SIZE` from `internal/sizes.h` (bounded digest-name buffer). -/
def OSSL_MAX_NAME_SIZE : Nat := 50

/-- The C `OSSL_MAX_PROPQUERY_SIZE` from `internal/sizes.h`. -/
def OSSL_MAX_PROPQUERY_SIZE : Nat := 256

/-- The C `OSSL_MAX_ALGORITHM_ID_SIZE` from `internal/sizes.h`: capacity of
`aid_buf`. -/
def OSSL_MAX_ALGORITHM_ID_SIZE : Nat := 256

/-- The C `OSSL_SIGNATURE_PARAM_DIGEST` ("digest"). -/
def OSSL_SIGNATURE_PARAM_DIGEST : String := "digest"

/-- The C `OSSL_SIGNATURE_PARAM_PROPERTIES` ("properties"). -/
def OSSL_SIGNATURE_PARAM_PROPERTIES : String := "properties"

/-- The C `OSSL_SIGNATURE_PARAM_ALGORITHM_ID` ("algorithm-id"). -/
def OSSL_SIGNATURE_PARAM_ALGORITHM_ID : String := "algorithm-id"

/-- A DSA key object (external `DSA *`).  Its behaviour (size, validation,
raw sign/verify) lives in `Env`; the key itself is an opaque identifier. -/
structure DsaKey where
  kid : Nat
deriving Repr, DecidableEq

/-- A fetched digest algorithm (external `EVP_MD *`).
`approvedNid` models membership in the approved-digest allow-list used by
`ossl_digest_get_approved_nid_with_sha1`: it is the digest's NID when the
digest is on the list (`NID_sha1` for the legacy weak digest) and
`NID_undef` otherwise.  `outSize` is `EVP_MD_size`. -/
structure MD where
  name : String
  outSize : Nat
  approvedNid : Nat
deriving Repr, DecidableEq

/-- A streaming digest computation state (external `EVP_MD_CTX *`):
the digest it was initialised with plus the accumulated input bytes.
`EVP_DigestUpdate` appends; `EVP_DigestFinal_ex` hashes the accumulated
bytes (via `Env.hash`) without destroying the state. -/
structure MDCTX where
  md : MD
  data : List Nat
deriving Repr, DecidableEq

/-- The environment of external collaborators (not part of the source file).
Functions are total; fallible external calls return `Option` or are guarded
by explicit success flags so that every failure path of the C code is
reachable in the model. -/
structure Env where
  /-- The C `ossl_prov_is_running()`. -/
  running : Bool
  /-- The C `EVP_MD_fetch libctx name props`: digest resolution by name and
  property query. -/
  fetch : String → Option String → Option MD
  /-- The C `ossl_dsa_check_key key forSign` (operation-aware key validation). -/
  checkKey : DsaKey → Bool → Bool
  /-- The C `DSA_size key`: maximum signature size for the key. -/
  dsaSize : DsaKey → Nat
  /-- The C `ossl_dsa_sign_int`: raw signing primitive; `some sig` on success
  (the signature bytes, whose length is the `sltmp` out-parameter). -/
  rawSign : DsaKey → List Nat → Option (List Nat)
  /-- The C `DSA_verify`: raw verification primitive; 1 = valid, 0 = invalid,
  -1 = error, returned unchanged by `dsa_verify`. -/
  rawVerify : DsaKey → List Nat → List Nat → Int
  /-- The DER algorithm-identifier encoder
  (`WPACKET` + `ossl_DER_w_algorithmIdentifier_DSA_with_MD`): given the
  context's key (possibly absent) and the digest NID, `some bytes` when
  encoding succeeds, `none` when the encoder reports an error. -/
  derEncode : Option DsaKey → Nat → Option (List Nat)
  /-- The digest function backing `EVP_DigestFinal_ex`. -/
  hash : MD → List Nat → List Nat
  /-- The C `DSA_up_ref` success. -/
  dsa_upref_ok : Bool
  /-- The C `EVP_MD_up_ref` success. -/
  md_upref_ok : Bool
  /-- The C `EVP_MD_CTX_new` success. -/
  mdctx_new_ok : Bool
  /-- The C `EVP_MD_CTX_copy_ex` success. -/
  mdctx_copy_ok : Bool
  /-- The C `EVP_DigestInit_ex` success for a given digest. -/
  digest_init_ok : MD → Bool
  /-- The C `EVP_DigestFinal_ex` success for a given digest stream state;
  on success the extracted value is `hash`. -/
  digest_final_ok : MDCTX → Bool
  /-- The C `OPENSSL_strdup` success. -/
  strdup_ok : Bool
  /-- The C `OPENSSL_zalloc` success. -/
  zalloc_ok : Bool

/-- The context state `PROV_DSA_CTX` (the `libctx` pointer is dropped: it is
only threaded through to `EVP_MD_fetch`, which `Env.fetch` models). -/
structure PROV_DSA_CTX where
  propq : Option String
  dsa : Option DsaKey
  /-- The C `flag_allow_md`: true iff the digest may be (re)bound. -/
  flag_allow_md : Bool
  /-- Cached digest name (`mdname[OSSL_MAX_NAME_SIZE]`); `""` when unbound. -/
  mdname : String
  /-- Bytes of the encoded algorithm identifier (`aid_buf`/`aid`); possibly
  stale when `aid_len = 0`. -/
  aid : List Nat
  /-- The C `aid_len`; 0 when encoding failed or was never attempted. -/
  aid_len : Nat
  md : Option MD
  mdctx : Option MDCTX
  operation : Nat
deriving Repr, DecidableEq

/-- The C `dsa_get_md_size`: the bound digest's output size, 0 if none bound. -/
def dsa_get_md_size (ctx : PROV_DSA_CTX) : Nat :=
  match ctx.md with
  | some md => md.outSize
  | none => 0

/-- Modelled from the spec: `ossl_digest_get_approved_nid_with_sha1`
(`providers/common/securitycheck.c`, not under `src/`).  Per the spec's
weak-digest policy, a digest is approved only if it is on the allow-list of
sufficiently strong algorithms, except SHA-1 which is approved only when
`sha1_allowed`; `NID_undef` signals an unapproved digest (also for a NULL
digest pointer). -/
def ossl_digest_get_approved_nid_with_sha1 (md : Option MD) (sha1_allowed : Bool) : Nat :=
  match md with
  | none => NID_undef
  | some md =>
      if md.approvedNid = NID_sha1 && !sha1_allowed then NID_undef
      else md.approvedNid

/-- Error codes raised by `dsa_setup_md` (`ERR_raise_data` reason codes). -/
inductive SetupErr where
  /-- The C `PROV_R_INVALID_DIGEST` — "%s could not be fetched". -/
  | invalidDigestFetch
  /-- The C `PROV_R_DIGEST_NOT_ALLOWED` — "digest=%s". -/
  | digestNotAllowed
  /-- The C `PROV_R_INVALID_DIGEST` — "%s exceeds name buffer length". -/
  | digestNameTooLong
deriving Repr, DecidableEq

/-- Result of `dsa_setup_md`: success with the updated context, or failure
with the raised error reasons (the context is unchanged on failure). -/
inductive SetupResult where
  | ok (ctx : PROV_DSA_CTX)
  | fail (errs : List SetupErr)
deriving Repr, DecidableEq

/-- The digest-properties fallback of `dsa_setup_md`: a NULL `mdprops`
argument falls back to the context's property query. -/
def resolveProps (p : Option String) (propq : Option String) : Option String :=
  match p with
  | none => propq
  | some q => some q

/-- The C `OPENSSL_strlcpy` into the fixed `mdname[OSSL_MAX_NAME_SIZE]`
buffer: copies at most `OSSL_MAX_NAME_SIZE - 1` characters of the source
and silently truncates the rest. -/
def strlcpyName (s : String) : String :=
  String.mk (s.data.take (OSSL_MAX_NAME_SIZE - 1))

/-- The C `dsa_setup_md ctx mdname mdprops`: the digest binder.  Notes on the
translation:
* `mdprops == NULL` falls back to the context's property query.
* `sha1_allowed = (ctx->operation != EVP_PKEY_OP_SIGN)`.
* failure happens only when the fetch fails or the NID is unapproved; the
  name-length check merely adds an error reason inside that same branch and
  does not by itself fail the call (`OPENSSL_strlcpy` later truncates).
* the algorithm-identifier encoding is attempted with `aid_len` pre-cleared
  to 0; encoder failure (including a result exceeding the fixed
  `aid_buf` capacity) leaves `aid_len = 0` and does not fail the bind,
  and leaves the (stale) `aid` bytes in place.
* on success the old `mdctx` is freed (`mdctx := none`) and the new digest
  and its (possibly truncated) name are stored. -/
def dsa_setup_md (env : Env) (ctx : PROV_DSA_CTX)
    (mdname : Option String) (mdprops : Option String) : SetupResult :=
  let mdprops := match mdprops with
    | none => ctx.propq
    | some p => some p
  match mdname with
  | none => .ok ctx
  | some name =>
      let sha1_allowed := ctx.operation ≠ EVP_PKEY_OP_SIGN
      let md := env.fetch name mdprops
      let md_nid := ossl_digest_get_approved_nid_with_sha1 md sha1_allowed
      let mdname_len := name.length
      if md = none ∨ md_nid = NID_undef then
        .fail ((if md = none then [SetupErr.invalidDigestFetch] else [])
              ++ (if md_nid = NID_undef then [SetupErr.digestNotAllowed] else [])
              ++ (if mdname_len ≥ OSSL_MAX_NAME_SIZE then [SetupErr.digestNameTooLong] else []))
      else
        let aidPair : List Nat × Nat :=
          match env.derEncode ctx.dsa md_nid with
          | some bytes =>
              if bytes.length ≤ OSSL_MAX_ALGORITHM_ID_SIZE then (bytes, bytes.length)
              else (ctx.aid, 0)
          | none => (ctx.aid, 0)
        .ok { ctx with
              aid := aidPair.1
              aid_len := aidPair.2
              mdctx := none
              md := md
              mdname := strlcpyName name }

/-- The C `dsa_newctx provctx propq`: allocate a zeroed context with
`flag_allow_md = 1`; `none` when the provider is not running, allocation
fails, or the property-query copy fails. -/
def dsa_newctx (env : Env) (propq : Option String) : Option PROV_DSA_CTX :=
  if !env.running then none
  else if !env.zalloc_ok then none
  else if propq.isSome && !env.strdup_ok then none
  else some
    { propq := propq
      dsa := none
      flag_allow_md := true
      mdname := ""
      aid := []
      aid_len := 0
      md := none
      mdctx := none
      operation := 0 }

/-- Result of `dsa_signverify_init`, one constructor per exit site. -/
inductive InitResult where
  /-- the joint guard: provider not running, NULL context/key, or
  `DSA_up_ref` failure (context unchanged). -/
  | refFailure
  /-- The C `ossl_dsa_check_key` failed: `PROV_R_INVALID_KEY_LENGTH`; note the
  key and operation have already been stored at this point. -/
  | invalidKeyLength
  | ok
deriving Repr, DecidableEq

/-- The C `dsa_signverify_init ctx dsa operation`: store a new reference to the
key (releasing the old one), record the operation, then validate the key
for the operation (`forSign = (operation == EVP_PKEY_OP_SIGN)`).  Returns
the result together with the (possibly mutated) context. -/
def dsa_signverify_init (env : Env) (ctx : PROV_DSA_CTX)
    (dsa : Option DsaKey) (operation : Nat) : InitResult × PROV_DSA_CTX :=
  match dsa with
  | none => (.refFailure, ctx)
  | some k =>
      if !env.running || !env.dsa_upref_ok then (.refFailure, ctx)
      else
        let ctx := { ctx with dsa := some k, operation := operation }
        if !env.checkKey k (operation = EVP_PKEY_OP_SIGN) then
          (.invalidKeyLength, ctx)
        else (.ok, ctx)

/-- The C `dsa_sign_init`. -/
def dsa_sign_init (env : Env) (ctx : PROV_DSA_CTX) (dsa : Option DsaKey) :
    InitResult × PROV_DSA_CTX :=
  dsa_signverify_init env ctx dsa EVP_PKEY_OP_SIGN

/-- The C `dsa_verify_init`. -/
def dsa_verify_init (env : Env) (ctx : PROV_DSA_CTX) (dsa : Option DsaKey) :
    InitResult × PROV_DSA_CTX :=
  dsa_signverify_init env ctx dsa EVP_PKEY_OP_VERIFY

/-- The C `DSA_size` applied to the context's key field.  The C code dereferences
`pdsactx->dsa` unconditionally (caller contract: a key was bound); the
`none` case is given the arbitrary value 0 to keep the model total. -/
def DSA_size_of (env : Env) (dsa : Option DsaKey) : Nat :=
  match dsa with
  | some k => env.dsaSize k
  | none => 0

/-- Result of `dsa_sign`, one constructor per exit site of the C function.
`toInt` recovers the raw C return value. -/
inductive SignResult where
  /-- The C `!ossl_prov_is_running()` (return 0). -/
  | notRunning
  /-- The C `sig == NULL`: size-query mode, `*siglen = DSA_size` (return 1). -/
  | sizeQuery (siglen : Nat)
  /-- The C `sigsize < dsasize` (return 0). -/
  | bufferTooSmall
  /-- digest bound and `tbslen != mdsize` (return 0). -/
  | sizeMismatch
  /-- The C `ossl_dsa_sign_int` reported failure (return 0). -/
  | primitiveFailure
  /-- success: the signature bytes written to `sig`, `*siglen` their
  length (return 1). -/
  | success (sig : List Nat)
  /-- the joint early guard of the streaming finals
  (`!running || ctx == NULL || mdctx == NULL`, return 0); unused by
  `dsa_sign` itself. -/
  | noStream
  /-- the `EVP_DigestFinal_ex`-failure exit of `dsa_digest_sign_final`
  (return 0, with the digest lock still held); unused by `dsa_sign`
  itself. -/
  | digestFinalFailure
deriving Repr, DecidableEq

/-- The C `int` return value of the sign-family functions. -/
def SignResult.toInt : SignResult → Int
  | .sizeQuery _ => 1
  | .success _ => 1
  | _ => 0

/-- The C `dsa_sign ctx sig siglen sigsize tbs tbslen`: one-shot signing.
`sigPresent` models `sig != NULL`; the input buffer and its length are the
list `tbs` (C passes them separately, with the caller guaranteeing
consistency).  The context is never mutated by this function. -/
def dsa_sign (env : Env) (ctx : PROV_DSA_CTX)
    (sigPresent : Bool) (sigsize : Nat) (tbs : List Nat) : SignResult :=
  let dsasize := DSA_size_of env ctx.dsa
  let mdsize := dsa_get_md_size ctx
  if !env.running then .notRunning
  else if !sigPresent then .sizeQuery dsasize
  else if sigsize < dsasize then .bufferTooSmall
  else if mdsize ≠ 0 ∧ tbs.length ≠ mdsize then .sizeMismatch
  else match ctx.dsa with
    | none => .primitiveFailure
    | some k =>
        match env.rawSign k tbs with
        | none => .primitiveFailure
        | some sig => .success sig

/-- The C `dsa_verify ctx sig siglen tbs tbslen`: one-shot verification.  The
return value is the raw C `int`: the early guard
(`!running || (mdsize != 0 && tbslen != mdsize)`) is a single exit
returning 0, otherwise `DSA_verify`'s verdict is passed through unchanged
(1 valid, 0 invalid, -1 error).  The context is never mutated. -/
def dsa_verify (env : Env) (ctx : PROV_DSA_CTX)
    (sig : List Nat) (tbs : List Nat) : Int :=
  let mdsize := dsa_get_md_size ctx
  if !env.running || (mdsize ≠ 0 && tbs.length ≠ mdsize) then 0
  else match ctx.dsa with
    | none => 0
    | some k => env.rawVerify k sig tbs

/-- Result of `dsa_digest_signverify_init`, one constructor per exit. -/
inductive DInitResult where
  /-- The C `!ossl_prov_is_running()` — context unchanged. -/
  | notRunning
  /-- The C `dsa_signverify_init` failed (after `flag_allow_md` was cleared). -/
  | initFailure (r : InitResult)
  /-- The C `dsa_setup_md` failed. -/
  | setupFailure (errs : List SetupErr)
  /-- The C `EVP_MD_CTX_new` or `EVP_DigestInit_ex` failed: the error label frees
  both `mdctx` and `md` and nulls them. -/
  | streamFailure
  | ok
deriving Repr, DecidableEq

/-- The C `dsa_digest_signverify_init ctx mdname dsa operation` (streamInit):
clears `flag_allow_md` first, performs key init, binds the digest
(`mdprops = NULL`), then creates and initialises the streaming digest
state.  `EVP_DigestInit_ex(mdctx, md, NULL)` on a fresh `EVP_MD_CTX` fails
when no digest is available (`md == NULL`). -/
def dsa_digest_signverify_init (env : Env) (ctx : PROV_DSA_CTX)
    (mdname : Option String) (dsa : Option DsaKey) (operation : Nat) :
    DInitResult × PROV_DSA_CTX :=
  if !env.running then (.notRunning, ctx)
  else
    let ctx := { ctx with flag_allow_md := false }
    match dsa_signverify_init env ctx dsa operation with
    | (.ok, ctx) =>
        (match dsa_setup_md env ctx mdname none with
         | .fail errs => (.setupFailure errs, ctx)
         | .ok ctx =>
             if !env.mdctx_new_ok then
               (.streamFailure, { ctx with mdctx := none, md := none })
             else match ctx.md with
               | none => (.streamFailure, { ctx with mdctx := none, md := none })
               | some d =>
                   if !env.digest_init_ok d then
                     (.streamFailure, { ctx with mdctx := none, md := none })
                   else (.ok, { ctx with mdctx := some { md := d, data := [] } }))
    | (r, ctx) => (.initFailure r, ctx)

/-- The C `dsa_digest_sign_init`. -/
def dsa_digest_sign_init (env : Env) (ctx : PROV_DSA_CTX)
    (mdname : Option String) (dsa : Option DsaKey) : DInitResult × PROV_DSA_CTX :=
  dsa_digest_signverify_init env ctx mdname dsa EVP_PKEY_OP_SIGN

/-- The C `dsa_digest_verify_init`. -/
def dsa_digest_verify_init (env : Env) (ctx : PROV_DSA_CTX)
    (mdname : Option String) (dsa : Option DsaKey) : DInitResult × PROV_DSA_CTX :=
  dsa_digest_signverify_init env ctx mdname dsa EVP_PKEY_OP_VERIFY

/-- The C `dsa_digest_signverify_update ctx data datalen` (streamUpdate): fails
iff no streaming digest state is active, otherwise feeds the chunk to
`EVP_DigestUpdate` (modelled as accumulation, always succeeding). -/
def dsa_digest_signverify_update (env : Env) (ctx : PROV_DSA_CTX)
    (data : List Nat) : Bool × PROV_DSA_CTX :=
  let _ := env
  match ctx.mdctx with
  | none => (false, ctx)
  | some m => (true, { ctx with mdctx := some { m with data := m.data ++ data } })

/-- The C `dsa_digest_sign_final ctx sig siglen sigsize` (streamFinalizeSign):
after the joint early guard, the final digest value is extracted only when
`sig != NULL`; when that extraction (`EVP_DigestFinal_ex`) fails the
function returns 0 at once, with `flag_allow_md` still cleared.  Otherwise
(extraction succeeded, or size-query mode, where the local `digest` stays
unused with `dlen = 0`) `flag_allow_md` is set back to 1 and the call is
delegated to `dsa_sign`.  The streaming state `mdctx` is never freed or
reset (a successful `EVP_DigestFinal_ex` is modelled as a non-destructive
read of the accumulated bytes). -/
def dsa_digest_sign_final (env : Env) (ctx : PROV_DSA_CTX)
    (sigPresent : Bool) (sigsize : Nat) : SignResult × PROV_DSA_CTX :=
  if !env.running || ctx.mdctx.isNone then (.noStream, ctx)
  else
    match ctx.mdctx with
    | some m =>
        if sigPresent && !env.digest_final_ok m then (.digestFinalFailure, ctx)
        else
          let digestVal : List Nat := if sigPresent then env.hash m.md m.data else []
          let ctx := { ctx with flag_allow_md := true }
          (dsa_sign env ctx sigPresent sigsize digestVal, ctx)
    | none => (.noStream, ctx)

/-- The C `dsa_digest_verify_final ctx sig siglen` (streamFinalizeVerify): after
the joint early guard, extracts the final digest value — returning 0 with
`flag_allow_md` still cleared when `EVP_DigestFinal_ex` fails — then sets
`flag_allow_md` back to 1 and delegates to `dsa_verify`; returns the raw C
`int` (0 from the early guard and from the extraction failure, as in the
C).  `mdctx` is never freed or reset. -/
def dsa_digest_verify_final (env : Env) (ctx : PROV_DSA_CTX)
    (sig : List Nat) : Int × PROV_DSA_CTX :=
  if !env.running || ctx.mdctx.isNone then (0, ctx)
  else
    match ctx.mdctx with
    | some m =>
        if !env.digest_final_ok m then (0, ctx)
        else
          let ctx := { ctx with flag_allow_md := true }
          (dsa_verify env ctx sig (env.hash m.md m.data), ctx)
    | none => (0, ctx)

/-- The C `dsa_dupctx ctx`: duplicate a context.  The duplicate shares `dsa` and
`md` by a new reference, deep-copies `mdctx` and `propq`, and copies every
scalar field; on any sub-step failure (`up_ref`, `EVP_MD_CTX_new`,
`EVP_MD_CTX_copy_ex`, `strdup`, allocation) the partial duplicate is torn
down by `dsa_freectx` and `none` is returned.  In the pure model a shared
reference and a faithful deep copy are both equality of the modelled
value, so the fully built duplicate equals the source state. -/
def dsa_dupctx (env : Env) (srcctx : PROV_DSA_CTX) : Option PROV_DSA_CTX :=
  if !env.running then none
  else if !env.zalloc_ok then none
  else if srcctx.dsa.isSome && !env.dsa_upref_ok then none
  else if srcctx.md.isSome && !env.md_upref_ok then none
  else if srcctx.mdctx.isSome && (!env.mdctx_new_ok || !env.mdctx_copy_ok) then none
  else if srcctx.propq.isSome && !env.strdup_ok then none
  else some srcctx

/-- An `OSSL_PARAM` array, modelled as an association list from parameter
key to UTF-8 value for the settable parameters (`OSSL_PARAM_locate` takes
the first entry with the requested key). -/
def locateParam (params : List (String × String)) (key : String) : Option String :=
  (params.find? (fun p => p.1 = key)).map (fun p => p.2)

/-- Result of `dsa_set_ctx_params`, one constructor per exit site. -/
inductive SetParamsResult where
  /-- NULL context or params (return 0). -/
  | nullArgs
  /-- digest param present while `!flag_allow_md` ("Not allowed during
  certain operations", return 0): the spec's `OperationLocked`. -/
  | locked
  /-- The C `OSSL_PARAM_get_utf8_string` failed on the digest name (value does
  not fit the `OSSL_MAX_NAME_SIZE` buffer). -/
  | badNameString
  /-- The C `OSSL_PARAM_get_utf8_string` failed on the properties value. -/
  | badPropsString
  /-- The C `dsa_setup_md` failed. -/
  | setupFailure (errs : List SetupErr)
  | ok
deriving Repr, DecidableEq

/-- The C `dsa_set_ctx_params ctx params`: only the digest (+ properties) keys
are interpreted; absent digest key is a no-op success.  When the digest key
is present: fails at the lock if `!flag_allow_md`, copies name and
properties into bounded local buffers (when the properties key is absent
the local empty string — not NULL — is passed on), then delegates to
`dsa_setup_md`.  Returns the result with the (possibly updated) context. -/
def dsa_set_ctx_params (env : Env) (ctx : PROV_DSA_CTX)
    (params : List (String × String)) : SetParamsResult × PROV_DSA_CTX :=
  match locateParam params OSSL_SIGNATURE_PARAM_DIGEST with
  | none => (.ok, ctx)
  | some name =>
      if !ctx.flag_allow_md then (.locked, ctx)
      else if name.length ≥ OSSL_MAX_NAME_SIZE then (.badNameString, ctx)
      else
        let props := locateParam params OSSL_SIGNATURE_PARAM_PROPERTIES
        if props.any (fun p => p.length ≥ OSSL_MAX_PROPQUERY_SIZE) then
          (.badPropsString, ctx)
        else
          match dsa_setup_md env ctx (some name) (some (props.getD "")) with
          | .fail errs => (.setupFailure errs, ctx)
          | .ok ctx => (.ok, ctx)

/-- Output of `dsa_get_ctx_params` for the two gettable keys: the value
written for each requested key (`none` when the key was not in the request
array).  The octet-string and UTF-8 writes by `OSSL_PARAM_set_*` into the
caller's buffers are modelled as always fitting. -/
structure GetParamsOut where
  aid_out : Option (List Nat)
  mdname_out : Option String
deriving Repr, DecidableEq

/-- The C `dsa_get_ctx_params ctx params`: reports
`(pdsactx->aid, pdsactx->aid_len)` as the algorithm identifier (the first
`aid_len` stored bytes — an empty octet string when `aid_len = 0`) and
`mdname` as the digest name.  `wantAid`/`wantMdname` model which keys
`OSSL_PARAM_locate` finds in the request array. -/
def dsa_get_ctx_params (ctx : PROV_DSA_CTX) (wantAid wantMdname : Bool) :
    GetParamsOut :=
  { aid_out := if wantAid then some (ctx.aid.take ctx.aid_len) else none
    mdname_out := if wantMdname then some ctx.mdname else none }

/-- Reachable context states: everything obtainable from a freshly created
context by the operations exposed in `ossl_dsa_signature_functions`
(`dsa_sign`, `dsa_verify` and the parameter getters do not mutate the
context and need no step). -/
inductive Reachable (env : Env) : PROV_DSA_CTX → Prop where
  | new (pq : Option String) (c : PROV_DSA_CTX) :
      dsa_newctx env pq = some c → Reachable env c
  | init (c : PROV_DSA_CTX) (k : Option DsaKey) (op : Nat) :
      Reachable env c → Reachable env (dsa_signverify_init env c k op).2
  | dinit (c : PROV_DSA_CTX) (n : Option String) (k : Option DsaKey) (op : Nat) :
      Reachable env c → Reachable env (dsa_digest_signverify_init env c n k op).2
  | update (c : PROV_DSA_CTX) (d : List Nat) :
      Reachable env c → Reachable env (dsa_digest_signverify_update env c d).2
  | sfinal (c : PROV_DSA_CTX) (sp : Bool) (ss : Nat) :
      Reachable env c → Reachable env (dsa_digest_sign_final env c sp ss).2
  | vfinal (c : PROV_DSA_CTX) (s : List Nat) :
      Reachable env c → Reachable env (dsa_digest_verify_final env c s).2
  | setp (c : PROV_DSA_CTX) (ps : List (String × String)) :
      Reachable env c → Reachable env (dsa_set_ctx_params env c ps).2
  | dup (c c' : PROV_DSA_CTX) :
      Reachable env c → dsa_dupctx env c = some c' → Reachable env c'

/-! Concrete instances used for witnesses and counterexamples. -/

/-- A strong approved digest (SHA2-256: NID 672, 32-byte output). -/
def sha256MD : MD := { name := "SHA2-256", outSize := 32, approvedNid := 672 }

/-- The legacy weak digest (SHA-1: 20-byte output, on the allow-list only
for verification). -/
def sha1MD : MD := { name := "SHA1", outSize := 20, approvedNid := NID_sha1 }

/-- A concrete key for witnesses. -/
def toyKey : DsaKey := { kid := 7 }

/-- A concrete environment: two resolvable digests, an always-valid key of
signature size 64, a toy signing primitive whose verifier accepts exactly
its own output, a 2-byte DER encoding and no external failures. -/
def toyEnv : Env :=
  { running := true
    fetch := fun n _ =>
      if n = "SHA2-256" then some sha256MD
      else if n = "SHA1" then some sha1MD
      else none
    checkKey := fun _ _ => true
    dsaSize := fun _ => 64
    rawSign := fun k m => some (k.kid :: m)
    rawVerify := fun k s m => if s = k.kid :: m then 1 else 0
    derEncode := fun _ nid => some [48, nid % 256]
    hash := fun md m =>
      List.replicate md.outSize ((m.foldl (fun a b => a + b) md.outSize) % 256)
    dsa_upref_ok := true
    md_upref_ok := true
    mdctx_new_ok := true
    mdctx_copy_ok := true
    digest_init_ok := fun _ => true
    digest_final_ok := fun _ => true
    strdup_ok := true
    zalloc_ok := true }

/-- A variant of `toyEnv` whose DER encoder always fails. -/
def toyEnvNoDer : Env := { toyEnv with derEncode := fun _ _ => none }

/-- The freshly created context `dsa_newctx toyEnv none`. -/
def toyCtx0 : PROV_DSA_CTX :=
  { propq := none
    dsa := none
    flag_allow_md := true
    mdname := ""
    aid := []
    aid_len := 0
    md := none
    mdctx := none
    operation := 0 }

/-- The context after a successful streaming sign init with SHA2-256 and
`toyKey` (NID 672 encodes to `[48, 160]`). -/
def toyStreamCtx : PROV_DSA_CTX :=
  { propq := none
    dsa := some toyKey
    flag_allow_md := false
    mdname := "SHA2-256"
    aid := [48, 160]
    aid_len := 2
    md := some sha256MD
    mdctx := some { md := sha256MD, data := [] }
    operation := EVP_PKEY_OP_SIGN }

/-- The context after a size-query streaming finalize on `toyStreamCtx`:
the digest stream is still present while the digest lock is released. -/
def toyFinalizedCtx : PROV_DSA_CTX :=
  { toyStreamCtx with flag_allow_md := true }

/-- A verify-operation context with `sha256MD` bound and `toyKey`, used for
one-shot verification instances. -/
def toyVerifyCtx : PROV_DSA_CTX :=
  { propq := none
    dsa := some toyKey
    flag_allow_md := true
    mdname := "SHA2-256"
    aid := [48, 160]
    aid_len := 2
    md := some sha256MD
    mdctx := none
    operation := EVP_PKEY_OP_VERIFY }

/-- A sign-operation context with no digest bound (as left by
`dsa_sign_init`), used for weak-digest binding instances. -/
def toySignCtx : PROV_DSA_CTX :=
  { toyCtx0 with dsa := some toyKey, operation := EVP_PKEY_OP_SIGN }

/-! Structural lemmas about the operations. -/

/-- A freshly created context has no digest and no digest stream. -/
theorem dsa_newctx_some (env : Env) (pq : Option String) (c : PROV_DSA_CTX)
    (h : dsa_newctx env pq = some c) :
    c.mdctx = none ∧ c.md = none := by
  unfold dsa_newctx at h
  repeat' split at h
  all_goals simp_all
  all_goals exact ⟨by rw [← h], by rw [← h]⟩

/-- Characterisation of the context left by `dsa_signverify_init`, over all
exits: it is unchanged or has exactly the new key and operation stored. -/
theorem dsa_signverify_init_snd (env : Env) (c : PROV_DSA_CTX)
    (k : Option DsaKey) (op : Nat) :
    (dsa_signverify_init env c k op).2 = c ∨
    ∃ kk, k = some kk ∧
      (dsa_signverify_init env c k op).2 = { c with dsa := some kk, operation := op } := by
  unfold dsa_signverify_init
  cases k with
  | none => exact Or.inl rfl
  | some kk =>
      dsimp only
      split
      · exact Or.inl rfl
      · split
        · exact Or.inr ⟨kk, rfl, rfl⟩
        · exact Or.inr ⟨kk, rfl, rfl⟩

/-- On the successful exit of `dsa_signverify_init`, the key was present
and the context holds exactly the new key and operation. -/
theorem dsa_signverify_init_ok (env : Env) (c : PROV_DSA_CTX)
    (k : Option DsaKey) (op : Nat) (c1 : PROV_DSA_CTX)
    (h : dsa_signverify_init env c k op = (.ok, c1)) :
    ∃ kk, k = some kk ∧ c1 = { c with dsa := some kk, operation := op } := by
  unfold dsa_signverify_init at h
  cases k with
  | none => simp_all
  | some kk =>
      dsimp only at h
      split at h
      · simp_all
      · split at h
        · simp_all
        · exact ⟨kk, rfl, by simpa using (congrArg Prod.snd h).symm⟩

/-- Characterisation of the context produced by a successful
`dsa_setup_md`: either no digest name was passed (context unchanged), or a
digest was stored, the digest stream was dropped and all fields other than
the digest, its name and the algorithm identifier are unchanged. -/
theorem dsa_setup_md_ok_state (env : Env) (c : PROV_DSA_CTX)
    (n p : Option String) (c2 : PROV_DSA_CTX)
    (h : dsa_setup_md env c n p = .ok c2) :
    c2 = c ∨
    (c2.mdctx = none ∧ c2.md.isSome ∧ c2.flag_allow_md = c.flag_allow_md ∧
     c2.operation = c.operation ∧ c2.propq = c.propq ∧ c2.dsa = c.dsa) := by
  cases n with
  | none =>
      unfold dsa_setup_md at h
      cases p <;> simp_all
  | some name =>
      cases p <;>
      · unfold dsa_setup_md at h
        dsimp only at h
        split at h
        · simp at h
        · rename_i hguard
          push_neg at hguard
          obtain ⟨hmd, -⟩ := hguard
          injection h with h
          subst h
          exact Or.inr ⟨rfl, Option.isSome_iff_ne_none.mpr hmd, rfl, rfl, rfl, rfl⟩

/-- Duplication returns the source state itself when it succeeds (sharing
and deep-copying both model as equality of the pure state). -/
theorem dsa_dupctx_some_eq (env : Env) (c c' : PROV_DSA_CTX)
    (h : dsa_dupctx env c = some c') : c' = c := by
  unfold dsa_dupctx at h
  repeat' split at h
  all_goals simp_all

/-- Characterisation of a successful streaming init: the provider was
running, the digest lock is engaged, the operation is recorded, and the
digest stream exists, freshly primed for the bound digest. -/
theorem dsa_digest_signverify_init_ok_state (env : Env) (c : PROV_DSA_CTX)
    (n : Option String) (k : Option DsaKey) (op : Nat) (c1 : PROV_DSA_CTX)
    (h : dsa_digest_signverify_init env c n k op = (.ok, c1)) :
    env.running = true ∧ c1.flag_allow_md = false ∧ c1.operation = op ∧
    c1.propq = c.propq ∧ ∃ d, c1.md = some d ∧ c1.mdctx = some { md := d, data := [] } := by
  unfold dsa_digest_signverify_init at h
  split at h
  · simp at h
  · rename_i hrun
    simp only [Bool.not_eq_true', Bool.not_eq_false] at hrun
    refine ⟨hrun, ?_⟩
    dsimp only at h
    rcases hI : dsa_signverify_init env { c with flag_allow_md := false } k op with ⟨r, cc⟩
    rw [hI] at h
    cases r with
    | refFailure => simp at h
    | invalidKeyLength => simp at h
    | ok =>
        obtain ⟨kk, -, hcceq⟩ :=
          dsa_signverify_init_ok env { c with flag_allow_md := false } k op cc hI
        dsimp only at h
        rcases hS : dsa_setup_md env cc n none with c2 | errs <;> rw [hS] at h
        · dsimp only at h
          split at h
          · simp at h
          · rcases hM : c2.md with - | d <;> rw [hM] at h
            · simp at h
            · dsimp only at h
              split at h
              · simp at h
              · injection h with h1 h2
                subst h2
                have hflag : c2.flag_allow_md = false ∧ c2.operation = op ∧ c2.propq = c.propq := by
                  rcases dsa_setup_md_ok_state env cc n none c2 hS with he | ⟨-, -, hf, ho, hp, -⟩
                  · subst he; rw [hcceq]; exact ⟨rfl, rfl, rfl⟩
                  · rw [hf, ho, hp, hcceq]; exact ⟨rfl, rfl, rfl⟩
                exact ⟨hflag.1, hflag.2.1, hflag.2.2, d, rfl, rfl⟩
        · simp at h


/-- The context left by a streaming init, over all exits: digest and stream
unchanged, or stream torn down, or stream and digest both present. -/
theorem dsa_digest_signverify_init_snd_cases (env : Env) (c : PROV_DSA_CTX)
    (n : Option String) (k : Option DsaKey) (op : Nat) :
    (((dsa_digest_signverify_init env c n k op).2).md = c.md ∧
     ((dsa_digest_signverify_init env c n k op).2).mdctx = c.mdctx) ∨
    ((dsa_digest_signverify_init env c n k op).2).mdctx = none ∨
    (((dsa_digest_signverify_init env c n k op).2).mdctx.isSome ∧
     ((dsa_digest_signverify_init env c n k op).2).md.isSome) := by
  unfold dsa_digest_signverify_init
  split
  · exact Or.inl ⟨rfl, rfl⟩
  · dsimp only
    rcases hI : dsa_signverify_init env { c with flag_allow_md := false } k op with ⟨r, cc⟩
    have hcc : cc.md = c.md ∧ cc.mdctx = c.mdctx := by
      rcases dsa_signverify_init_snd env { c with flag_allow_md := false } k op with he | ⟨kk, -, he⟩ <;>
        rw [hI] at he <;> dsimp only at he <;> rw [he] <;> exact ⟨rfl, rfl⟩
    cases r with
    | refFailure => exact Or.inl hcc
    | invalidKeyLength => exact Or.inl hcc
    | ok =>
        dsimp only
        rcases hS : dsa_setup_md env cc n none with c2 | errs
        · dsimp only
          split
          · exact Or.inr (Or.inl rfl)
          · rcases hM : c2.md with - | d
            · exact Or.inr (Or.inl rfl)
            · dsimp only
              split
              · exact Or.inr (Or.inl rfl)
              · exact Or.inr (Or.inr ⟨rfl, by simp [hM]⟩)
        · exact Or.inl hcc

/-- The context left by `dsa_digest_sign_final`: unchanged on the early
guard, otherwise exactly the digest lock released. -/
theorem dsa_digest_sign_final_snd (env : Env) (c : PROV_DSA_CTX) (sp : Bool) (ss : Nat) :
    (dsa_digest_sign_final env c sp ss).2 = c ∨
    (dsa_digest_sign_final env c sp ss).2 = { c with flag_allow_md := true } := by
  unfold dsa_digest_sign_final
  split
  · exact Or.inl rfl
  · rcases hM : c.mdctx with - | m
    · exact Or.inl rfl
    · dsimp only
      split
      · exact Or.inl rfl
      · exact Or.inr rfl

/-- The context left by `dsa_digest_verify_final`: unchanged on the early
guard, otherwise exactly the digest lock released. -/
theorem dsa_digest_verify_final_snd (env : Env) (c : PROV_DSA_CTX) (s : List Nat) :
    (dsa_digest_verify_final env c s).2 = c ∨
    (dsa_digest_verify_final env c s).2 = { c with flag_allow_md := true } := by
  unfold dsa_digest_verify_final
  split
  · exact Or.inl rfl
  · rcases hM : c.mdctx with - | m
    · exact Or.inl rfl
    · dsimp only
      split
      · exact Or.inl rfl
      · exact Or.inr rfl

/-- Streaming update leaves the digest untouched and the stream's presence
unchanged. -/
theorem dsa_digest_signverify_update_snd (env : Env) (c : PROV_DSA_CTX) (d : List Nat) :
    ((dsa_digest_signverify_update env c d).2).md = c.md ∧
    ((dsa_digest_signverify_update env c d).2).mdctx.isSome = c.mdctx.isSome := by
  unfold dsa_digest_signverify_update
  rcases hM : c.mdctx with - | m <;> simp [hM]

/-- The context left by `dsa_set_ctx_params`: unchanged on every failure
exit and when no digest key is present; after a successful re-bind the
stream is dropped and a digest is present. -/
theorem dsa_set_ctx_params_snd_cases (env : Env) (c : PROV_DSA_CTX)
    (ps : List (String × String)) :
    (dsa_set_ctx_params env c ps).2 = c ∨
    (((dsa_set_ctx_params env c ps).2).mdctx = none ∧
     ((dsa_set_ctx_params env c ps).2).md.isSome ∧
     ((dsa_set_ctx_params env c ps).2).flag_allow_md = c.flag_allow_md ∧
     ((dsa_set_ctx_params env c ps).2).operation = c.operation ∧
     ((dsa_set_ctx_params env c ps).2).propq = c.propq ∧
     ((dsa_set_ctx_params env c ps).2).dsa = c.dsa) := by
  unfold dsa_set_ctx_params
  rcases hL : locateParam ps OSSL_SIGNATURE_PARAM_DIGEST with - | name
  · exact Or.inl rfl
  · dsimp only
    split
    · exact Or.inl rfl
    · split
      · exact Or.inl rfl
      · split
        · exact Or.inl rfl
        · rcases hS : dsa_setup_md env c (some name)
              (some ((locateParam ps OSSL_SIGNATURE_PARAM_PROPERTIES).getD "")) with c2 | errs
          · dsimp only
            rcases dsa_setup_md_ok_state env c (some name) _ c2 hS with he | hfields
            · rw [he]; exact Or.inl rfl
            · exact Or.inr hfields
          · exact Or.inl rfl

set_option maxRecDepth 8192

/-- The toy size-query-finalized state is reachable: create a context,
streaming-sign init with SHA2-256, then finalize in size-query mode. -/
theorem toyFinalizedCtx_reachable : Reachable toyEnv toyFinalizedCtx := by
  have h0 : Reachable toyEnv toyCtx0 := .new none toyCtx0 (by decide)
  have h1 := @Reachable.dinit toyEnv toyCtx0 (some "SHA2-256")
    (some toyKey) EVP_PKEY_OP_SIGN h0
  rw [show (dsa_digest_signverify_init toyEnv toyCtx0 (some "SHA2-256")
      (some toyKey) EVP_PKEY_OP_SIGN).2 = toyStreamCtx from by decide] at h1
  have h2 := @Reachable.sfinal toyEnv toyStreamCtx false 0 h1
  rwa [show (dsa_digest_sign_final toyEnv toyStreamCtx false 0).2 = toyFinalizedCtx
      from by decide] at h2

/-! Claim theorems. -/

/-- C4 (counterexample): the claimed data-model invariant
"`digestStream != null` implies `digest != null` and
`allowDigestChange == false`" is false as stated: the state reached by
streaming-sign init followed by a size-query finalize still holds the
digest stream while the digest-change lock has been released
(`dsa_digest_sign_final` sets `flag_allow_md = 1` without freeing
`mdctx`). -/
theorem dsa_invariant_flag_counterexample :
    Reachable toyEnv toyFinalizedCtx ∧ toyFinalizedCtx.mdctx.isSome = true ∧
    toyFinalizedCtx.flag_allow_md = true :=
  ⟨toyFinalizedCtx_reachable, by decide, by decide⟩

/-- C4 (amended): in every reachable context state, a non-null digest
stream implies a non-null digest; every exposed operation preserves this.
The `allowDigestChange == false` conjunct of the claim does not hold in
every reachable state, because the streaming finalizers release the lock
while keeping the stream. -/
theorem dsa_reachable_stream_implies_digest (env : Env) (c : PROV_DSA_CTX)
    (h : Reachable env c) : c.mdctx.isSome → c.md.isSome := by
  induction h with
  | new pq c hn =>
      intro hm
      rcases dsa_newctx_some env pq c hn with ⟨h1, -⟩
      rw [h1] at hm
      simp at hm
  | init c k op hR ih =>
      rcases dsa_signverify_init_snd env c k op with he | ⟨kk, -, he⟩ <;> rw [he] <;> exact ih
  | dinit c n k op hR ih =>
      rcases dsa_digest_signverify_init_snd_cases env c n k op with ⟨h1, h2⟩ | h1 | ⟨h1, h2⟩
      · rw [h1, h2]; exact ih
      · rw [h1]; simp
      · intro hmm; exact h2
  | update c d hR ih =>
      rcases dsa_digest_signverify_update_snd env c d with ⟨h1, h2⟩
      rw [h1, h2]; exact ih
  | sfinal c sp ss hR ih =>
      rcases dsa_digest_sign_final_snd env c sp ss with he | he <;> rw [he] <;> exact ih
  | vfinal c s hR ih =>
      rcases dsa_digest_verify_final_snd env c s with he | he <;> rw [he] <;> exact ih
  | setp c ps hR ih =>
      rcases dsa_set_ctx_params_snd_cases env c ps with he | ⟨h1, h2, -⟩
      · rw [he]; exact ih
      · intro hmm; exact h2
  | dup c c' hR hd ih =>
      rw [dsa_dupctx_some_eq env c c' hd]; exact ih

/-- C4 (witness): the amended invariant evaluated on the concrete reachable
finalized state. -/
theorem dsa_reachable_stream_implies_digest_witness :
    toyFinalizedCtx.mdctx.isSome ∧ toyFinalizedCtx.md.isSome :=
  ⟨by decide, dsa_reachable_stream_implies_digest toyEnv toyFinalizedCtx
    toyFinalizedCtx_reachable (by decide)⟩


/-- A successful digest bind exists whenever the fetch resolves and the
NID is approved for the context's operation. -/
theorem dsa_setup_md_ok_of (env : Env) (c : PROV_DSA_CTX) (n : String)
    (p : Option String) (d : MD)
    (hfetch : env.fetch n (resolveProps p c.propq) = some d)
    (hnid : ossl_digest_get_approved_nid_with_sha1 (some d)
        (decide (c.operation ≠ EVP_PKEY_OP_SIGN)) ≠ NID_undef) :
    ∃ c2, dsa_setup_md env c (some n) p = .ok c2 := by
  rcases hS : dsa_setup_md env c (some n) p with c2 | errs
  · exact ⟨c2, rfl⟩
  · exfalso
    cases p <;>
    · unfold dsa_setup_md at hS
      dsimp only at hS
      dsimp only [resolveProps] at hfetch
      rw [hfetch] at hS
      split at hS
      · rename_i hor
        exact hor.elim (by simp) hnid
      · simp at hS

/-- Field-level characterisation of a successful digest bind with an
explicit digest name (the algorithm-identifier fields are covered by the
dedicated lemmas below). -/
theorem dsa_setup_md_ok_fields (env : Env) (c : PROV_DSA_CTX) (n : String)
    (p : Option String) (c2 : PROV_DSA_CTX)
    (h : dsa_setup_md env c (some n) p = .ok c2) :
    c2.md = env.fetch n (resolveProps p c.propq) ∧
    c2.mdname = strlcpyName n ∧ c2.mdctx = none ∧
    c2.propq = c.propq ∧ c2.dsa = c.dsa ∧ c2.flag_allow_md = c.flag_allow_md ∧
    c2.operation = c.operation := by
  cases p <;>
  · unfold dsa_setup_md at h
    dsimp only at h
    split at h
    · simp at h
    · injection h with h
      subst h
      exact ⟨rfl, rfl, rfl, rfl, rfl, rfl, rfl⟩

/-- The NID handed to the DER encoder by `dsa_setup_md`. -/
def setup_md_nid (env : Env) (c : PROV_DSA_CTX) (n : String) (p : Option String) : Nat :=
  ossl_digest_get_approved_nid_with_sha1
    (env.fetch n (resolveProps p c.propq))
    (c.operation ≠ EVP_PKEY_OP_SIGN)

/-- When the DER encoder fails (or its result exceeds the fixed buffer
capacity), a successful bind leaves `aid_len = 0` with the stale `aid`
bytes in place. -/
theorem dsa_setup_md_aid_encoder_failure (env : Env) (c : PROV_DSA_CTX)
    (n : String) (p : Option String) (c2 : PROV_DSA_CTX)
    (h : dsa_setup_md env c (some n) p = .ok c2)
    (henc : ∀ bs, env.derEncode c.dsa (setup_md_nid env c n p) = some bs →
      OSSL_MAX_ALGORITHM_ID_SIZE < bs.length) :
    c2.aid_len = 0 ∧ c2.aid = c.aid := by
  cases p <;>
  · unfold dsa_setup_md at h
    dsimp only at h
    split at h
    · simp at h
    · injection h with h
      subst h
      rcases hE : env.derEncode c.dsa
          (ossl_digest_get_approved_nid_with_sha1
            (env.fetch n _) (decide (c.operation ≠ EVP_PKEY_OP_SIGN))) with - | bs
      · exact ⟨rfl, rfl⟩
      · have hb := henc bs (by exact hE)
        dsimp only
        rw [if_neg (by omega)]
        exact ⟨rfl, rfl⟩

/-- When the DER encoder succeeds within the fixed buffer capacity, a
successful bind stores the encoded bytes and their length. -/
theorem dsa_setup_md_aid_encoder_success (env : Env) (c : PROV_DSA_CTX)
    (n : String) (p : Option String) (c2 : PROV_DSA_CTX) (bs : List Nat)
    (h : dsa_setup_md env c (some n) p = .ok c2)
    (henc : env.derEncode c.dsa (setup_md_nid env c n p) = some bs)
    (hcap : bs.length ≤ OSSL_MAX_ALGORITHM_ID_SIZE) :
    c2.aid = bs ∧ c2.aid_len = bs.length := by
  cases p <;>
  · unfold dsa_setup_md at h
    dsimp only at h
    split at h
    · simp at h
    · injection h with h
      subst h
      have henc' := henc
      unfold setup_md_nid at henc'
      dsimp only [resolveProps] at henc'
      rw [henc']
      dsimp only
      rw [if_pos hcap]
      exact ⟨rfl, rfl⟩

/-- Setting the digest parameter fails at the lock exit whenever the
digest-change flag is cleared, leaving the context unchanged. -/
theorem dsa_set_ctx_params_locked (env : Env) (c : PROV_DSA_CTX)
    (ps : List (String × String)) (name : String)
    (hp : locateParam ps OSSL_SIGNATURE_PARAM_DIGEST = some name)
    (hf : c.flag_allow_md = false) :
    dsa_set_ctx_params env c ps = (.locked, c) := by
  unfold dsa_set_ctx_params
  rw [hp]
  simp [hf]

/-- With the lock open, setting a resolvable approved digest whose name
fits the bounded buffer succeeds. -/
theorem dsa_set_ctx_params_open_ok (env : Env) (c : PROV_DSA_CTX)
    (n2 : String) (d2 : MD)
    (hflag : c.flag_allow_md = true)
    (hlen : n2.length < OSSL_MAX_NAME_SIZE)
    (hfetch : env.fetch n2 (some "") = some d2)
    (hnid : ossl_digest_get_approved_nid_with_sha1 (some d2)
        (decide (c.operation ≠ EVP_PKEY_OP_SIGN)) ≠ NID_undef) :
    (dsa_set_ctx_params env c [(OSSL_SIGNATURE_PARAM_DIGEST, n2)]).1 = .ok := by
  have hp : locateParam [(OSSL_SIGNATURE_PARAM_DIGEST, n2)] OSSL_SIGNATURE_PARAM_DIGEST
      = some n2 := by simp [locateParam]
  have hq : locateParam [(OSSL_SIGNATURE_PARAM_DIGEST, n2)] OSSL_SIGNATURE_PARAM_PROPERTIES
      = none := by simp [locateParam, OSSL_SIGNATURE_PARAM_DIGEST, OSSL_SIGNATURE_PARAM_PROPERTIES]
  obtain ⟨c2, hs⟩ := dsa_setup_md_ok_of env c n2 (some "") d2 hfetch hnid
  unfold dsa_set_ctx_params
  rw [hp]
  dsimp only
  rw [hflag]
  rw [if_neg (by simp)]
  rw [if_neg (by omega)]
  rw [hq]
  dsimp only [Option.getD]
  rw [if_neg (by simp)]
  rw [hs]

/-- When the provider is running, a stream is active and the digest
extraction does not fail (it is skipped in size-query mode), a streaming
sign finalize leaves exactly the lock-released context. -/
theorem dsa_digest_sign_final_snd_active (env : Env) (c : PROV_DSA_CTX)
    (sp : Bool) (ss : Nat) (m : MDCTX)
    (hrun : env.running = true) (hm : c.mdctx = some m)
    (hok : sp = false ∨ env.digest_final_ok m = true) :
    (dsa_digest_sign_final env c sp ss).2 = { c with flag_allow_md := true } := by
  have hc : (sp && !env.digest_final_ok m) = false := by
    rcases hok with h | h <;> simp [h]
  simp [dsa_digest_sign_final, hrun, hm, hc]

/-- When the provider is running, a stream is active and the digest
extraction does not fail, a streaming verify finalize leaves exactly the
lock-released context. -/
theorem dsa_digest_verify_final_snd_active (env : Env) (c : PROV_DSA_CTX)
    (s : List Nat) (m : MDCTX)
    (hrun : env.running = true) (hm : c.mdctx = some m)
    (hok : env.digest_final_ok m = true) :
    (dsa_digest_verify_final env c s).2 = { c with flag_allow_md := true } := by
  simp [dsa_digest_verify_final, hrun, hm, hok]

/-- C3: after a successful streaming init and before the finalize, any
attempt to change the digest through the parameter protocol fails at the
lock exit (the spec's `OperationLocked`) with the context unchanged; each
finalizer that reaches the delegated sign/verify step — that is, whose
digest extraction succeeds, or which runs in size-query mode where no
extraction happens — sets the digest-change flag back to true whatever
that delegated step returns (its result is universally quantified); and on
the finalized context a digest change through the parameter protocol
succeeds again (for a resolvable digest approved for the context's
operation).  On the `EVP_DigestFinal_ex`-failure exit the C returns 0
before the flag assignment, so the lock stays held there; the claim scopes
the release to the outcome of the delegated step, which is what is proved.
-/
theorem dsa_digest_lock_lifecycle
    (env : Env) (c c1 : PROV_DSA_CTX) (n : String) (k : Option DsaKey) (op : Nat)
    (ps : List (String × String)) (pname : String) (m : MDCTX)
    (hp : locateParam ps OSSL_SIGNATURE_PARAM_DIGEST = some pname)
    (hinit : dsa_digest_signverify_init env c (some n) k op = (.ok, c1))
    (hm : c1.mdctx = some m)
    (n2 : String) (d2 : MD)
    (hlen : n2.length < OSSL_MAX_NAME_SIZE)
    (hfetch : env.fetch n2 (some "") = some d2)
    (hnid : ossl_digest_get_approved_nid_with_sha1 (some d2)
        (decide (op ≠ EVP_PKEY_OP_SIGN)) ≠ NID_undef) :
    dsa_set_ctx_params env c1 ps = (.locked, c1) ∧
    (∀ sp ss, sp = false ∨ env.digest_final_ok m = true →
       ((dsa_digest_sign_final env c1 sp ss).2).flag_allow_md = true ∧
       (dsa_set_ctx_params env (dsa_digest_sign_final env c1 sp ss).2
           [(OSSL_SIGNATURE_PARAM_DIGEST, n2)]).1 = .ok) ∧
    (∀ s, env.digest_final_ok m = true →
       ((dsa_digest_verify_final env c1 s).2).flag_allow_md = true ∧
       (dsa_set_ctx_params env (dsa_digest_verify_final env c1 s).2
           [(OSSL_SIGNATURE_PARAM_DIGEST, n2)]).1 = .ok) := by
  obtain ⟨hrun, hflag1, hop, -, d, hmd, hmdctx⟩ :=
    dsa_digest_signverify_init_ok_state env c (some n) k op c1 hinit
  refine ⟨dsa_set_ctx_params_locked env c1 ps pname hp hflag1, ?_, ?_⟩
  · intro sp ss hok
    rw [dsa_digest_sign_final_snd_active env c1 sp ss m hrun hm hok]
    refine ⟨rfl, ?_⟩
    exact dsa_set_ctx_params_open_ok env { c1 with flag_allow_md := true } n2 d2 rfl hlen hfetch
      (by rw [show ({ c1 with flag_allow_md := true } : PROV_DSA_CTX).operation = op from hop]
          exact hnid)
  · intro s hok
    rw [dsa_digest_verify_final_snd_active env c1 s m hrun hm hok]
    refine ⟨rfl, ?_⟩
    exact dsa_set_ctx_params_open_ok env { c1 with flag_allow_md := true } n2 d2 rfl hlen hfetch
      (by rw [show ({ c1 with flag_allow_md := true } : PROV_DSA_CTX).operation = op from hop]
          exact hnid)

/-- C3 (witness): the lock lifecycle on the concrete toy stream context,
with both finalizer kinds: a size-query sign finalize and a verify
finalize whose digest extraction succeeds. -/
theorem dsa_digest_lock_lifecycle_witness :
    dsa_set_ctx_params toyEnv toyStreamCtx [("digest", "SHA2-256")] = (.locked, toyStreamCtx) ∧
    ((dsa_digest_sign_final toyEnv toyStreamCtx false 0).2).flag_allow_md = true ∧
    (dsa_set_ctx_params toyEnv (dsa_digest_sign_final toyEnv toyStreamCtx false 0).2
        [("digest", "SHA2-256")]).1 = .ok ∧
    ((dsa_digest_verify_final toyEnv toyStreamCtx [9]).2).flag_allow_md = true ∧
    (dsa_set_ctx_params toyEnv (dsa_digest_verify_final toyEnv toyStreamCtx [9]).2
        [("digest", "SHA2-256")]).1 = .ok := by
  obtain ⟨h1, h2, h3⟩ := dsa_digest_lock_lifecycle toyEnv toyCtx0 toyStreamCtx "SHA2-256"
    (some toyKey) EVP_PKEY_OP_SIGN [("digest", "SHA2-256")] "SHA2-256"
    { md := sha256MD, data := [] } (by decide) (by decide) (by decide)
    "SHA2-256" sha256MD (by decide) (by decide) (by decide)
  exact ⟨h1, (h2 false 0 (Or.inl rfl)).1, (h2 false 0 (Or.inl rfl)).2,
    (h3 [9] (by decide)).1, (h3 [9] (by decide)).2⟩

/-- C2: binding the legacy weak digest (SHA-1) through the digest binder
fails with `DigestNotAllowed` (the `PROV_R_DIGEST_NOT_ALLOWED` reason, and
no other) when the context's operation is Sign, and succeeds, storing the
digest, when the operation is Verify.  Both the explicit `bindDigest`
route (`dsa_setup_md`, reached from streaming init) and the `setParams`
route funnel into this function. -/
theorem dsa_weak_digest_asymmetry (env : Env) (ctx : PROV_DSA_CTX)
    (name : String) (p : Option String) (md : MD)
    (hfetch : env.fetch name (resolveProps p ctx.propq) = some md)
    (hsha1 : md.approvedNid = NID_sha1)
    (hlen : name.length < OSSL_MAX_NAME_SIZE) :
    (ctx.operation = EVP_PKEY_OP_SIGN →
      dsa_setup_md env ctx (some name) p = .fail [SetupErr.digestNotAllowed]) ∧
    (ctx.operation = EVP_PKEY_OP_VERIFY →
      ∃ c2, dsa_setup_md env ctx (some name) p = .ok c2 ∧ c2.md = some md) := by
  constructor
  · intro hop
    have hlen' : ¬(name.length ≥ OSSL_MAX_NAME_SIZE) := by omega
    cases p <;>
    · unfold dsa_setup_md
      dsimp only
      dsimp only [resolveProps] at hfetch
      rw [hfetch, hop]
      simp [ossl_digest_get_approved_nid_with_sha1, hsha1, NID_sha1, NID_undef,
        EVP_PKEY_OP_SIGN, hlen']
  · intro hop
    have hnid : ossl_digest_get_approved_nid_with_sha1 (some md)
        (decide (ctx.operation ≠ EVP_PKEY_OP_SIGN)) ≠ NID_undef := by
      rw [hop]
      simp [ossl_digest_get_approved_nid_with_sha1, hsha1, NID_sha1, NID_undef,
        EVP_PKEY_OP_SIGN, EVP_PKEY_OP_VERIFY]
    obtain ⟨c2, h⟩ := dsa_setup_md_ok_of env ctx name p md hfetch hnid
    refine ⟨c2, h, ?_⟩
    rw [(dsa_setup_md_ok_fields env ctx name p c2 h).1, hfetch]

/-- C2 (witness): SHA-1 binding on concrete sign and verify contexts. -/
theorem dsa_weak_digest_asymmetry_witness :
    dsa_setup_md toyEnv toySignCtx (some "SHA1") none = .fail [SetupErr.digestNotAllowed] ∧
    ∃ c2, dsa_setup_md toyEnv toyVerifyCtx (some "SHA1") none = .ok c2 ∧ c2.md = some sha1MD := by
  refine ⟨?_, ?_⟩
  · exact (dsa_weak_digest_asymmetry toyEnv toySignCtx "SHA1" none sha1MD
      (by decide) (by decide) (by decide)).1 rfl
  · exact (dsa_weak_digest_asymmetry toyEnv toyVerifyCtx "SHA1" none sha1MD
      (by decide) (by decide) (by decide)).2 rfl

/-- C1: with the provider running, a valid key and a bound digest, signing
an input of the digest's output size into an adequate buffer and then
verifying the produced signature with the same input on the same context
(or any context holding the same key whose digest state gives the same
size contract, e.g. a verify-initialized one) returns a positive verdict.
The raw primitive pair `ossl_dsa_sign_int`/`DSA_verify` is external to the
file; its round-trip property is the hypothesis `hrt`, modelled from the
spec. -/
theorem dsa_sign_verify_roundtrip (env : Env) (ctx ctx' : PROV_DSA_CTX)
    (k : DsaKey) (d : MD) (tbs sig : List Nat) (sigsize : Nat)
    (hrun : env.running = true)
    (hk : ctx.dsa = some k)
    (hd : ctx.md = some d)
    (hlen : tbs.length = d.outSize)
    (hcap : env.dsaSize k ≤ sigsize)
    (hsig : env.rawSign k tbs = some sig)
    (hrt : ∀ m s, env.rawSign k m = some s → env.rawVerify k s m = 1)
    (hk' : ctx'.dsa = some k)
    (hd' : ctx'.md = some d ∨ ctx'.md = none) :
    dsa_sign env ctx true sigsize tbs = .success sig ∧
    dsa_verify env ctx' sig tbs = 1 := by
  constructor
  · have h1 : ¬(sigsize < env.dsaSize k) := by omega
    simp [dsa_sign, DSA_size_of, dsa_get_md_size, hrun, hk, hd, hsig, h1, hlen]
  · have hv := hrt tbs sig hsig
    rcases hd' with hd' | hd' <;>
      simp [dsa_verify, dsa_get_md_size, hrun, hk', hd', hlen, hv]

/-- C1 (witness): round trip on the toy key and a 32-byte digest value. -/
theorem dsa_sign_verify_roundtrip_witness :
    dsa_sign toyEnv toyVerifyCtx true 64 (List.replicate 32 0) =
      .success (7 :: List.replicate 32 0) ∧
    dsa_verify toyEnv toyVerifyCtx (7 :: List.replicate 32 0) (List.replicate 32 0) = 1 := by
  refine dsa_sign_verify_roundtrip toyEnv toyVerifyCtx toyVerifyCtx toyKey sha256MD
    (List.replicate 32 0) (7 :: List.replicate 32 0) 64
    (by decide) (by decide) (by decide) (by decide) (by decide) (by decide)
    ?_ (by decide) (Or.inl (by decide))
  intro m s h
  simp only [toyEnv] at h ⊢
  injection h with h
  subst h
  simp

/-- C5 (amended): with a bound digest of nonzero output size and an input
whose length differs from the digest's output size, a one-shot sign with
an adequate buffer fails at the dedicated size-mismatch exit and a
one-shot verify returns 0 — but for verify this 0 is the same raw return
value as a negative verification, so the two outcomes are not
distinguishable from the return value at this layer (the counterexample
exhibits the collision); no error is raised on this path. -/
theorem dsa_size_mismatch (env : Env) (ctx : PROV_DSA_CTX) (k : DsaKey)
    (d : MD) (tbs : List Nat) (sigsize : Nat)
    (hrun : env.running = true) (hk : ctx.dsa = some k) (hd : ctx.md = some d)
    (hpos : d.outSize ≠ 0) (hne : tbs.length ≠ d.outSize)
    (hcap : env.dsaSize k ≤ sigsize) :
    dsa_sign env ctx true sigsize tbs = .sizeMismatch ∧
    ∀ sig, dsa_verify env ctx sig tbs = 0 := by
  constructor
  · have h1 : ¬(sigsize < env.dsaSize k) := by omega
    simp [dsa_sign, DSA_size_of, dsa_get_md_size, hrun, hk, hd, h1, hpos, hne]
  · intro sig
    simp [dsa_verify, dsa_get_md_size, hrun, hd, hpos, hne]

/-- C5 (witness): the amended statement on a concrete 20-byte input
against a 32-byte digest. -/
theorem dsa_size_mismatch_witness :
    dsa_sign toyEnv toyVerifyCtx true 64 (List.replicate 20 0) = .sizeMismatch ∧
    dsa_verify toyEnv toyVerifyCtx [9] (List.replicate 20 0) = 0 := by
  obtain ⟨h1, h2⟩ := dsa_size_mismatch toyEnv toyVerifyCtx toyKey sha256MD
    (List.replicate 20 0) 64 (by decide) (by decide) (by decide) (by decide)
    (by decide) (by decide)
  exact ⟨h1, h2 [9]⟩

/-- C5 (counterexample): the distinguishability part of the claim is false
at the return-value level: on a verify context with a 32-byte digest
bound, a 20-byte input (an input-contract violation) and a well-sized
input with a signature the primitive rejects (a legitimate negative
verdict) both make `dsa_verify` return 0, and no error is raised on the
mismatch path. -/
theorem dsa_size_mismatch_indistinguishable :
    dsa_verify toyEnv toyVerifyCtx [9] (List.replicate 20 0) = 0 ∧
    (List.replicate 20 (0 : Nat)).length ≠ sha256MD.outSize ∧
    dsa_verify toyEnv toyVerifyCtx [9] (List.replicate 32 0) = 0 ∧
    (List.replicate 32 (0 : Nat)).length = sha256MD.outSize ∧
    toyEnv.rawVerify toyKey [9] (List.replicate 32 0) = 0 :=
  ⟨by decide, by decide, by decide, by decide, by decide⟩

/-- C6: when the DER encoder fails (or its output exceeds the fixed
buffer), binding a resolvable approved digest still succeeds, with
`aid_len = 0`; the get-parameters call then reports the algorithm
identifier as an empty octet string; and compared with any run whose
encoder succeeds within capacity (same digest resolution), the two result
contexts agree on every field except `aid`/`aid_len`. -/
theorem dsa_aid_encoding_failure_nonfatal (env : Env) (c : PROV_DSA_CTX)
    (n : String) (p : Option String) (d : MD)
    (hfetch : env.fetch n (resolveProps p c.propq) = some d)
    (hnid : ossl_digest_get_approved_nid_with_sha1 (some d)
        (decide (c.operation ≠ EVP_PKEY_OP_SIGN)) ≠ NID_undef)
    (henc : ∀ bs, env.derEncode c.dsa (setup_md_nid env c n p) = some bs →
      OSSL_MAX_ALGORITHM_ID_SIZE < bs.length) :
    ∃ c2, dsa_setup_md env c (some n) p = .ok c2 ∧ c2.aid_len = 0 ∧
      (dsa_get_ctx_params c2 true false).aid_out = some [] ∧
      ∀ env2 c2' bs, env2.fetch = env.fetch →
        env2.derEncode c.dsa (setup_md_nid env2 c n p) = some bs →
        bs.length ≤ OSSL_MAX_ALGORITHM_ID_SIZE →
        dsa_setup_md env2 c (some n) p = .ok c2' →
        c2'.md = c2.md ∧ c2'.mdname = c2.mdname ∧ c2'.mdctx = c2.mdctx ∧
        c2'.flag_allow_md = c2.flag_allow_md ∧ c2'.operation = c2.operation ∧
        c2'.propq = c2.propq ∧ c2'.dsa = c2.dsa ∧
        c2'.aid = bs ∧ c2'.aid_len = bs.length := by
  obtain ⟨c2, h⟩ := dsa_setup_md_ok_of env c n p d hfetch hnid
  obtain ⟨hmd, hname, hmdctx, hpropq, hdsa, hflag, hop⟩ :=
    dsa_setup_md_ok_fields env c n p c2 h
  obtain ⟨hlen0, -⟩ := dsa_setup_md_aid_encoder_failure env c n p c2 h henc
  refine ⟨c2, h, hlen0, ?_, ?_⟩
  · simp [dsa_get_ctx_params, hlen0]
  · intro env2 c2' bs hf he hcap h'
    obtain ⟨hmd', hname', hmdctx', hpropq', hdsa', hflag', hop'⟩ :=
      dsa_setup_md_ok_fields env2 c n p c2' h'
    obtain ⟨ha, hal⟩ := dsa_setup_md_aid_encoder_success env2 c n p c2' bs h' he hcap
    exact ⟨by rw [hmd', hmd, hf], by rw [hname', hname],
      by rw [hmdctx', hmdctx], by rw [hflag', hflag],
      by rw [hop', hop], by rw [hpropq', hpropq], by rw [hdsa', hdsa], ha, hal⟩

/-- C6 (witness): binding SHA2-256 under an environment whose DER encoder
always fails. -/
theorem dsa_aid_encoding_failure_nonfatal_witness :
    ∃ c2, dsa_setup_md toyEnvNoDer toySignCtx (some "SHA2-256") none = .ok c2 ∧
      c2.aid_len = 0 ∧ (dsa_get_ctx_params c2 true false).aid_out = some [] := by
  obtain ⟨c2, h1, h2, h3, -⟩ := dsa_aid_encoding_failure_nonfatal toyEnvNoDer toySignCtx
    "SHA2-256" none sha256MD (by decide) (by decide)
    (by intro bs h; simp [toyEnvNoDer] at h)
  exact ⟨c2, h1, h2, h3⟩

/-- C7: duplication either returns null — the C code tears the partial
duplicate down with `dsa_freectx` before doing so, which a pure final
state cannot distinguish from never building it — or returns a complete
duplicate agreeing with the source on every field: key and digest shared
by new reference, stream and property query deep-copied, scalar fields
copied by value.  No half-initialized context is ever returned. -/
theorem dsa_dupctx_atomic (env : Env) (src : PROV_DSA_CTX) :
    dsa_dupctx env src = none ∨
    ∃ d, dsa_dupctx env src = some d ∧ d.dsa = src.dsa ∧ d.md = src.md ∧
      d.mdctx = src.mdctx ∧ d.propq = src.propq ∧ d.mdname = src.mdname ∧
      d.aid = src.aid ∧ d.aid_len = src.aid_len ∧
      d.flag_allow_md = src.flag_allow_md ∧ d.operation = src.operation := by
  rcases h : dsa_dupctx env src with - | d
  · exact Or.inl rfl
  · have he := dsa_dupctx_some_eq env src d h
    subst he
    exact Or.inr ⟨d, rfl, rfl, rfl, rfl, rfl, rfl, rfl, rfl, rfl, rfl⟩

/-- C8: with a valid key, a size query (`sig == NULL`) returns exactly
`DSA_size` of the key whatever the other arguments are — and, the context
being unmodified by `dsa_sign`, repeated queries return the same value;
a real call with a smaller buffer fails at the buffer-too-small exit, and
a real call with exactly the queried capacity succeeds (the other
preconditions held). -/
theorem dsa_sign_size_query (env : Env) (ctx : PROV_DSA_CTX) (k : DsaKey)
    (tbs : List Nat)
    (hrun : env.running = true) (hk : ctx.dsa = some k)
    (hmd : dsa_get_md_size ctx = 0 ∨ tbs.length = dsa_get_md_size ctx)
    (hsig : env.rawSign k tbs ≠ none) :
    (∀ ss tbs0, dsa_sign env ctx false ss tbs0 = .sizeQuery (env.dsaSize k)) ∧
    (∀ cc, cc < env.dsaSize k → dsa_sign env ctx true cc tbs = .bufferTooSmall) ∧
    (∃ s, dsa_sign env ctx true (env.dsaSize k) tbs = .success s) := by
  refine ⟨?_, ?_, ?_⟩
  · intro ss tbs0
    simp [dsa_sign, DSA_size_of, hrun, hk]
  · intro cc hcc
    simp [dsa_sign, DSA_size_of, hrun, hk, hcc]
  · rcases hS : env.rawSign k tbs with - | s
    · exact absurd hS hsig
    · refine ⟨s, ?_⟩
      have h1 : ¬(env.dsaSize k < env.dsaSize k) := by omega
      rcases hmd with hmd | hmd <;>
        simp [dsa_sign, DSA_size_of, hrun, hk, hS, h1, hmd]

/-- C8 (witness): size query, undersized call and exact-size call on the
toy context. -/
theorem dsa_sign_size_query_witness :
    dsa_sign toyEnv toyVerifyCtx false 0 [] = .sizeQuery 64 ∧
    dsa_sign toyEnv toyVerifyCtx true 63 (List.replicate 32 0) = .bufferTooSmall ∧
    ∃ s, dsa_sign toyEnv toyVerifyCtx true 64 (List.replicate 32 0) = .success s := by
  obtain ⟨h1, h2, h3⟩ := dsa_sign_size_query toyEnv toyVerifyCtx toyKey
    (List.replicate 32 0) (by decide) (by decide) (Or.inr (by decide)) (by decide)
  exact ⟨h1 0 [], h2 63 (by decide), h3⟩

/-- C9: the streaming finals do not destroy the digest stream: after a
sign or verify finalize on a context with an active stream (whatever the
outcome, successful ones included), the stream state is unchanged, and a
subsequent update succeeds — it does not fail the no-stream check — and
appends to the accumulated bytes left over from the finalized
operation. -/
theorem dsa_stream_survives_finalize (env : Env) (ctx : PROV_DSA_CTX)
    (m : MDCTX) (chunk : List Nat) (sp : Bool) (ss : Nat) (sig : List Nat)
    (hrun : env.running = true) (hm : ctx.mdctx = some m) :
    ((dsa_digest_sign_final env ctx sp ss).2).mdctx = some m ∧
    dsa_digest_signverify_update env (dsa_digest_sign_final env ctx sp ss).2 chunk =
      (true, { (dsa_digest_sign_final env ctx sp ss).2 with
               mdctx := some { m with data := m.data ++ chunk } }) ∧
    ((dsa_digest_verify_final env ctx sig).2).mdctx = some m ∧
    dsa_digest_signverify_update env (dsa_digest_verify_final env ctx sig).2 chunk =
      (true, { (dsa_digest_verify_final env ctx sig).2 with
               mdctx := some { m with data := m.data ++ chunk } }) := by
  have hr := hrun
  rcases dsa_digest_sign_final_snd env ctx sp ss with hs | hs <;>
    rcases dsa_digest_verify_final_snd env ctx sig with hv | hv <;>
    rw [hs, hv] <;>
    refine ⟨hm, ?_, hm, ?_⟩ <;> simp [dsa_digest_signverify_update, hm]

/-- C9 (witness): update after a successful streaming size-query finalize
on the toy stream context. -/
theorem dsa_stream_survives_finalize_witness :
    ((dsa_digest_sign_final toyEnv toyStreamCtx false 0).2).mdctx =
      some { md := sha256MD, data := [] } ∧
    dsa_digest_signverify_update toyEnv
        (dsa_digest_sign_final toyEnv toyStreamCtx false 0).2 [1, 2] =
      (true, { (dsa_digest_sign_final toyEnv toyStreamCtx false 0).2 with
               mdctx := some { md := sha256MD, data := [1, 2] } }) := by
  obtain ⟨h1, h2, -, -⟩ := dsa_stream_survives_finalize toyEnv toyStreamCtx
    { md := sha256MD, data := [] } [1, 2] false 0 [] (by decide) (by decide)
  exact ⟨h1, h2⟩

/-- C10: a streaming sign finalize in size-query mode (`sig == NULL`)
returns the key's maximum signature size and releases the digest lock,
and nothing else changes: the result state is exactly the source with
`flag_allow_md := true` (the stream untouched), and the outcome does not
depend on the digest function at all — no final digest value is
extracted. -/
theorem dsa_digest_sign_final_size_query (env : Env) (ctx : PROV_DSA_CTX)
    (k : DsaKey) (m : MDCTX) (ss : Nat)
    (hrun : env.running = true) (hk : ctx.dsa = some k) (hm : ctx.mdctx = some m) :
    dsa_digest_sign_final env ctx false ss =
      (.sizeQuery (env.dsaSize k), { ctx with flag_allow_md := true }) ∧
    ∀ h2, dsa_digest_sign_final { env with hash := h2 } ctx false ss =
      dsa_digest_sign_final env ctx false ss := by
  constructor
  · simp [dsa_digest_sign_final, dsa_sign, DSA_size_of, hrun, hm, hk]
  · intro h2
    simp [dsa_digest_sign_final, dsa_sign, DSA_size_of, hrun, hm, hk]

/-- C10 (witness): size-query finalize on the toy stream context. -/
theorem dsa_digest_sign_final_size_query_witness :
    dsa_digest_sign_final toyEnv toyStreamCtx false 0 =
      (.sizeQuery 64, toyFinalizedCtx) :=
  (dsa_digest_sign_final_size_query toyEnv toyStreamCtx toyKey
    { md := sha256MD, data := [] } 0 (by decide) (by decide) (by decide)).1

end DsaSig
